import Mathlib

/-!
Shallow embedding of the CampusConnect services (hostel, library, finance, hr)
and proofs about their allocation / status-transition behaviour.

Modelling conventions, uniform across the file:
* MongoDB ObjectIds are natural numbers; `ObjectId::parse_str` on a request
  string is `parseObjectId` (`String.toNat?`), failing exactly on strings that
  do not denote an id.
* Each service's MongoDB collections are lists of records; `find_one` with a
  filter is `List.find?`, `update_one` is `updateFirst` (MongoDB updates the
  first matching document and succeeds even when nothing matches), and
  `insert_one` appends a record carrying a fresh id drawn from a `nextId`
  counter in the state.
* `DateTime<Utc>` values are integer Unix milliseconds; `Utc::now()` becomes an
  explicit `now : Int` argument; `chrono::Duration::days n` is `n * msPerDay`
  and `Duration::num_days` on a positive duration is division by `msPerDay`.
* `f64` fields (amounts, fines) are modelled as `Int`: every value the claims
  touch is an integer that `f64` represents exactly.
* A handler is a pure function from state, validated JWT claims, and request
  body to an HTTP response paired with the successor state.  JWT extraction
  itself (the credential validator) is outside the modelled core; handlers
  receive already-validated `Claims`.
-/

namespace CampusConnect

/-- Outcome of a handler: HTTP 200 with a message and numeric payload fields,
HTTP 400 (BadRequest), or HTTP 404 (NotFound). -/
inductive Resp where
  | ok (msg : String) (payload : List Int)
  | badRequest (msg : String)
  | notFound (msg : String)
deriving DecidableEq, Repr

/-- Validated JWT claims (`Claims` in every service). -/
structure Claims where
  sub : String
  role : String
  campus_id : String
  exp : Nat
deriving DecidableEq, Repr

/-- Numeric value of a decimal digit character, if it is one. -/
def charDigit? (c : Char) : Option Nat :=
  let n := c.toNat
  if 48 ≤ n ∧ n ≤ 57 then some (n - 48) else none

/-- Accumulating decimal parser over a character list. -/
def parseDigits : List Char → Option Nat → Option Nat
  | [], acc => acc
  | c :: cs, acc =>
    match charDigit? c, acc with
    | some d, some a => parseDigits cs (some (a * 10 + d))
    | some d, none => parseDigits cs (some d)
    | none, _ => none

/-- Stands in for `ObjectId::parse_str`: a request string either denotes an id
(here: a decimal numeral) or fails to parse, exactly as an ObjectId string
either parses or yields a BadRequest. -/
def parseObjectId (s : String) : Option Nat :=
  parseDigits s.data none

/-- MongoDB `update_one`: rewrite the first record matching the filter, leave
the collection unchanged when nothing matches. -/
def updateFirst {α : Type} (p : α → Bool) (f : α → α) : List α → List α
  | [] => []
  | a :: as => if p a then f a :: as else a :: updateFirst p f as

/-! Hostel service (src/hostel-service/src/main.rs). -/

/-- Hostel `Room` document. -/
structure Room where
  id : Nat
  room_number : String
  hostel_name : String
  capacity : Int
  occupied : Int
  room_type : String
  floor : Int
  campus_id : String
  created_at : Int
deriving DecidableEq, Repr

/-- Body of POST /api/rooms (`RoomRequest`): note no occupancy and no tenant field. -/
structure RoomRequest where
  room_number : String
  hostel_name : String
  capacity : Int
  room_type : String
  floor : Int
deriving DecidableEq, Repr

/-- Hostel `RoomAllocation` document. -/
structure RoomAllocation where
  id : Nat
  student_id : String
  room_id : String
  hostel_name : String
  room_number : String
  allocation_date : Int
  status : String
  campus_id : String
deriving DecidableEq, Repr

/-- Body of POST /api/allocations (`AllocationRequest`). -/
structure AllocationRequest where
  student_id : String
  room_id : String
deriving DecidableEq, Repr

/-- The hostel service's slice of the MongoDB database. -/
structure HostelState where
  rooms : List Room
  room_allocations : List RoomAllocation
  nextId : Nat
deriving DecidableEq, Repr

/-- Handler `create_room`: inserts a room with `occupied = 0` and the caller's
`campus_id`; the request cannot set either. -/
def create_room (st : HostelState) (claims : Claims) (room_data : RoomRequest)
    (now : Int) : Resp × HostelState :=
  let new_room : Room :=
    { id := st.nextId, room_number := room_data.room_number,
      hostel_name := room_data.hostel_name, capacity := room_data.capacity,
      occupied := 0, room_type := room_data.room_type, floor := room_data.floor,
      campus_id := claims.campus_id, created_at := now }
  (Resp.ok "Room created successfully" [],
    { st with rooms := st.rooms ++ [new_room], nextId := st.nextId + 1 })

/-- Handler `allocate_room`: parse the room id, look the room up under the
caller's tenant, reject when full, otherwise insert an active allocation and
increment `occupied` (the increment filters by `_id` only, as in the source). -/
def allocate_room (st : HostelState) (claims : Claims)
    (allocation_data : AllocationRequest) (now : Int) : Resp × HostelState :=
  match parseObjectId allocation_data.room_id with
  | none => (Resp.badRequest "invalid id", st)
  | some room_obj_id =>
    match st.rooms.find? (fun r =>
        r.id == room_obj_id && r.campus_id == claims.campus_id) with
    | none => (Resp.notFound "Room not found", st)
    | some room =>
      if room.occupied ≥ room.capacity then
        (Resp.badRequest "Room is full", st)
      else
        let new_allocation : RoomAllocation :=
          { id := st.nextId, student_id := allocation_data.student_id,
            room_id := allocation_data.room_id, hostel_name := room.hostel_name,
            room_number := room.room_number, allocation_date := now,
            status := "active", campus_id := claims.campus_id }
        (Resp.ok "Room allocated successfully" [],
          { st with
            room_allocations := st.room_allocations ++ [new_allocation],
            rooms := updateFirst (fun r => r.id == room_obj_id)
              (fun r => { r with occupied := r.occupied + 1 }) st.rooms,
            nextId := st.nextId + 1 })

/-! Library service (src/library-service/src/main.rs). -/

/-- Library `Book` document. -/
structure Book where
  id : Nat
  isbn : String
  title : String
  author : String
  category : String
  total_copies : Int
  available_copies : Int
  campus_id : String
  created_at : Int
deriving DecidableEq, Repr

/-- Body of POST /api/books (`BookRequest`): no available-copies and no tenant field. -/
structure BookRequest where
  isbn : String
  title : String
  author : String
  category : String
  total_copies : Int
deriving DecidableEq, Repr

/-- Library `BookIssue` document. -/
structure BookIssue where
  id : Nat
  book_id : String
  book_title : String
  student_id : String
  issue_date : Int
  due_date : Int
  return_date : Option Int
  status : String
  fine_amount : Int
  campus_id : String
deriving DecidableEq, Repr

/-- Body of POST /api/issue (`IssueRequest`). -/
structure IssueRequest where
  book_id : String
  student_id : String
  days : Int
deriving DecidableEq, Repr

/-- Body of POST /api/return (`ReturnRequest`). -/
structure ReturnRequest where
  issue_id : String
deriving DecidableEq, Repr

/-- The library service's slice of the MongoDB database. -/
structure LibraryState where
  books : List Book
  book_issues : List BookIssue
  nextId : Nat
deriving DecidableEq, Repr

/-- Milliseconds per day; `chrono::Duration::days 1`. -/
def msPerDay : Int := 86400000

/-- Handler `add_book`: inserts a book with `available_copies = total_copies`
and the caller's `campus_id`. -/
def add_book (st : LibraryState) (claims : Claims) (book_data : BookRequest)
    (now : Int) : Resp × LibraryState :=
  let new_book : Book :=
    { id := st.nextId, isbn := book_data.isbn, title := book_data.title,
      author := book_data.author, category := book_data.category,
      total_copies := book_data.total_copies,
      available_copies := book_data.total_copies,
      campus_id := claims.campus_id, created_at := now }
  (Resp.ok "Book added successfully" [],
    { st with books := st.books ++ [new_book], nextId := st.nextId + 1 })

/-- Handler `issue_book`: parse the book id, look the book up under the caller's
tenant, reject when no copy is available, otherwise insert an issued record and
decrement `available_copies` (filtering by `_id` only, as in the source). -/
def issue_book (st : LibraryState) (claims : Claims) (issue_data : IssueRequest)
    (now : Int) : Resp × LibraryState :=
  match parseObjectId issue_data.book_id with
  | none => (Resp.badRequest "invalid id", st)
  | some book_obj_id =>
    match st.books.find? (fun b =>
        b.id == book_obj_id && b.campus_id == claims.campus_id) with
    | none => (Resp.notFound "Book not found", st)
    | some book =>
      if book.available_copies ≤ 0 then
        (Resp.badRequest "Book not available", st)
      else
        let issue_date := now
        let due_date := issue_date + issue_data.days * msPerDay
        let new_issue : BookIssue :=
          { id := st.nextId, book_id := issue_data.book_id,
            book_title := book.title, student_id := issue_data.student_id,
            issue_date := issue_date, due_date := due_date, return_date := none,
            status := "issued", fine_amount := 0, campus_id := claims.campus_id }
        (Resp.ok "Book issued successfully" [due_date],
          { st with
            book_issues := st.book_issues ++ [new_issue],
            books := updateFirst (fun b => b.id == book_obj_id)
              (fun b => { b with available_copies := b.available_copies - 1 }) st.books,
            nextId := st.nextId + 1 })

/-- Fine computed inside `return_book`: `(return_date - due_date).num_days()`
whole days, at 5 currency units per day, zero when not overdue. -/
def computeFine (due now : Int) : Int :=
  if due < now then ((now - due) / msPerDay) * 5 else 0

/-- Status written by `return_book`. -/
def returnStatus (due now : Int) : String :=
  if due < now then "returned_with_fine" else "returned"

/-- Handler `return_book`: parse the issue id, look the issue up under the
caller's tenant, overwrite the issue record with return date / status / fine,
then parse the stored `book_id` and increment the book's `available_copies`
(filtering by `_id` only).  There is no check of the issue's current status:
the update runs even on an already-returned record, and the issue update is
persisted before the book id is parsed. -/
def return_book (st : LibraryState) (claims : Claims) (return_data : ReturnRequest)
    (now : Int) : Resp × LibraryState :=
  match parseObjectId return_data.issue_id with
  | none => (Resp.badRequest "invalid id", st)
  | some issue_obj_id =>
    match st.book_issues.find? (fun i =>
        i.id == issue_obj_id && i.campus_id == claims.campus_id) with
    | none => (Resp.notFound "Issue record not found", st)
    | some issue =>
      let fine_amount := computeFine issue.due_date now
      let status := returnStatus issue.due_date now
      let issues := updateFirst (fun i => i.id == issue_obj_id)
        (fun i => { i with return_date := some now, status := status, fine_amount := fine_amount })
        st.book_issues
      match parseObjectId issue.book_id with
      | none => (Resp.badRequest "invalid id", { st with book_issues := issues })
      | some book_obj_id =>
        (Resp.ok "Book returned successfully" [fine_amount],
          { st with
            book_issues := issues,
            books := updateFirst (fun b => b.id == book_obj_id)
              (fun b => { b with available_copies := b.available_copies + 1 }) st.books })

/-! Finance service (src/finance-service/src/main.rs). -/

/-- Finance `FeeStructure` document. -/
structure FeeStructure where
  id : Nat
  student_id : String
  fee_type : String
  amount : Int
  due_date : String
  status : String
  campus_id : String
  created_at : Int
deriving DecidableEq, Repr

/-- Finance `Payment` document. -/
structure Payment where
  id : Nat
  student_id : String
  fee_id : String
  amount : Int
  payment_method : String
  transaction_id : String
  payment_date : Int
  campus_id : String
deriving DecidableEq, Repr

/-- Body of POST /api/payments (`PaymentRequest`). -/
structure PaymentRequest where
  student_id : String
  fee_id : String
  amount : Int
  payment_method : String
  transaction_id : String
deriving DecidableEq, Repr

/-- The finance service's slice of the MongoDB database. -/
structure FinanceState where
  fees : List FeeStructure
  payments : List Payment
  nextId : Nat
deriving DecidableEq, Repr

/-- Handler `create_payment`: inserts the payment first, and only afterwards
parses the fee reference and flips the fee's status to paid (filter on `_id`
and `campus_id`); the two writes are separate round-trips, not a transaction. -/
def create_payment (st : FinanceState) (claims : Claims)
    (payment_data : PaymentRequest) (now : Int) : Resp × FinanceState :=
  let new_payment : Payment :=
    { id := st.nextId, student_id := payment_data.student_id,
      fee_id := payment_data.fee_id, amount := payment_data.amount,
      payment_method := payment_data.payment_method,
      transaction_id := payment_data.transaction_id, payment_date := now,
      campus_id := claims.campus_id }
  let payments := st.payments ++ [new_payment]
  match parseObjectId payment_data.fee_id with
  | none =>
    (Resp.badRequest "invalid id",
      { st with payments := payments, nextId := st.nextId + 1 })
  | some fee_obj_id =>
    (Resp.ok "Payment recorded successfully" [],
      { st with
        payments := payments,
        fees := updateFirst (fun f =>
            f.id == fee_obj_id && f.campus_id == claims.campus_id)
          (fun f => { f with status := "paid" }) st.fees,
        nextId := st.nextId + 1 })

/-! HR service (src/hr-service/src/main.rs). -/

/-- HR `LeaveRequest` document. -/
structure LeaveRequest where
  id : Nat
  employee_id : String
  leave_type : String
  from_date : String
  to_date : String
  reason : String
  status : String
  campus_id : String
  created_at : Int
deriving DecidableEq, Repr

/-- Body of PUT /api/leave/approve (`LeaveApproval`). -/
structure LeaveApproval where
  request_id : String
  status : String
deriving DecidableEq, Repr

/-- The HR service's slice of the MongoDB database (leave requests only; the
other collections play no part in the claims). -/
structure HrState where
  leave_requests : List LeaveRequest
  nextId : Nat
deriving DecidableEq, Repr

/-- Handler `approve_leave`: parse the request id and unconditionally `$set`
the record's status to the request body's status string, filtering by `_id`
and `campus_id`; there is no read of the current status and no transition
check, and the handler reports success even when nothing matches. -/
def approve_leave (st : HrState) (claims : Claims) (approval_data : LeaveApproval) :
    Resp × HrState :=
  match parseObjectId approval_data.request_id with
  | none => (Resp.badRequest "invalid id", st)
  | some request_obj_id =>
    (Resp.ok "Leave request updated successfully" [],
      { st with
        leave_requests := updateFirst (fun l =>
            l.id == request_obj_id && l.campus_id == claims.campus_id)
          (fun l => { l with status := approval_data.status }) st.leave_requests })

/-! Well-formedness of the stores and the step relations generated by the
handlers, used to state the occupancy invariants. -/

/-- Well-formed hostel store: every room's occupancy is within bounds, room
ids are pairwise distinct (MongoDB `_id` uniqueness), and below the fresh-id
counter. -/
def HostelWf (st : HostelState) : Prop :=
  (∀ r ∈ st.rooms, 0 ≤ r.occupied ∧ r.occupied ≤ r.capacity) ∧
  (st.rooms.map Room.id).Nodup ∧
  (∀ r ∈ st.rooms, r.id < st.nextId)

/-- Well-formed library store: no book's `available_copies` is negative, book
ids are pairwise distinct and below the fresh-id counter. -/
def LibraryWf (st : LibraryState) : Prop :=
  (∀ b ∈ st.books, 0 ≤ b.available_copies) ∧
  (st.books.map Book.id).Nodup ∧
  (∀ b ∈ st.books, b.id < st.nextId)

instance (st : HostelState) : Decidable (HostelWf st) := by
  unfold HostelWf; infer_instance

instance (st : LibraryState) : Decidable (LibraryWf st) := by
  unfold LibraryWf; infer_instance

/-- One observable mutation of the hostel store: a pool registration (with a
nonnegative requested capacity, as the spec's data model requires) or an
allocation, by any caller. -/
inductive HostelStep : HostelState → HostelState → Prop where
  | create (st : HostelState) (claims : Claims) (room_data : RoomRequest)
      (now : Int) (hcap : 0 ≤ room_data.capacity) :
      HostelStep st (create_room st claims room_data now).2
  | alloc (st : HostelState) (claims : Claims)
      (allocation_data : AllocationRequest) (now : Int) :
      HostelStep st (allocate_room st claims allocation_data now).2

/-- One observable mutation of the library store: a book registration (with a
nonnegative requested copy count), an issue, or a return, by any caller. -/
inductive LibraryStep : LibraryState → LibraryState → Prop where
  | add (st : LibraryState) (claims : Claims) (book_data : BookRequest)
      (now : Int) (hcap : 0 ≤ book_data.total_copies) :
      LibraryStep st (add_book st claims book_data now).2
  | issue (st : LibraryState) (claims : Claims) (issue_data : IssueRequest)
      (now : Int) :
      LibraryStep st (issue_book st claims issue_data now).2
  | ret (st : LibraryState) (claims : Claims) (return_data : ReturnRequest)
      (now : Int) :
      LibraryStep st (return_book st claims return_data now).2

/-! Generic lemmas about the store primitives. -/

theorem updateFirst_of_find?_none {α : Type} (p : α → Bool) (f : α → α) :
    ∀ {l : List α}, l.find? p = none → updateFirst p f l = l := by
  intro l
  induction l with
  | nil => intro _; rfl
  | cons a as ih =>
    intro h
    rw [List.find?_cons] at h
    by_cases hp : p a
    · simp [hp] at h
    · simp only [hp] at h
      simp [updateFirst, hp, ih h]

theorem find?_split {α : Type} (p : α → Bool) :
    ∀ {l : List α} {a : α}, l.find? p = some a →
      ∃ l₁ l₂, l = l₁ ++ a :: l₂ ∧ (∀ x ∈ l₁, p x = false) ∧ p a = true := by
  intro l
  induction l with
  | nil => intro a h; simp [List.find?] at h
  | cons b bs ih =>
    intro a h
    by_cases hp : p b
    · rw [List.find?_cons_of_pos bs hp, Option.some.injEq] at h
      exact ⟨[], bs, by simp [h], by intro x hx; simp at hx, by rw [← h]; exact hp⟩
    · rw [List.find?_cons_of_neg bs hp] at h
      obtain ⟨l₁, l₂, heq, hl₁, hpa⟩ := ih h
      refine ⟨b :: l₁, l₂, by rw [heq]; rfl, ?_, hpa⟩
      intro x hx
      rcases List.mem_cons.1 hx with hx | hx
      · rw [hx]; exact Bool.eq_false_iff.2 hp
      · exact hl₁ x hx

theorem updateFirst_append {α : Type} (p : α → Bool) (f : α → α) (l₁ : List α)
    (a : α) (l₂ : List α) (h₁ : ∀ x ∈ l₁, p x = false) (ha : p a = true) :
    updateFirst p f (l₁ ++ a :: l₂) = l₁ ++ f a :: l₂ := by
  induction l₁ with
  | nil => simp [updateFirst, ha]
  | cons b bs ih =>
    have hb : p b = false := h₁ b (List.mem_cons_self b bs)
    have htail : updateFirst p f (bs ++ a :: l₂) = bs ++ f a :: l₂ :=
      ih (fun x hx => h₁ x (List.mem_cons_of_mem b hx))
    show updateFirst p f (b :: (bs ++ a :: l₂)) = b :: (bs ++ f a :: l₂)
    rw [updateFirst, hb]
    simp only [Bool.false_eq_true, if_false]
    rw [htail]

theorem updateFirst_of_find?_some {α : Type} (p : α → Bool) (f : α → α)
    {l : List α} {a : α} (h : l.find? p = some a) :
    ∃ l₁ l₂, l = l₁ ++ a :: l₂ ∧ (∀ x ∈ l₁, p x = false) ∧ p a = true ∧
      updateFirst p f l = l₁ ++ f a :: l₂ := by
  obtain ⟨l₁, l₂, heq, hl₁, hpa⟩ := find?_split p h
  exact ⟨l₁, l₂, heq, hl₁, hpa, by rw [heq]; exact updateFirst_append p f l₁ a l₂ hl₁ hpa⟩

theorem find?_append_cons {α : Type} (p : α → Bool) (l₁ : List α) (a : α) (l₂ : List α)
    (h₁ : ∀ x ∈ l₁, p x = false) (ha : p a = true) :
    (l₁ ++ a :: l₂).find? p = some a := by
  induction l₁ with
  | nil => exact List.find?_cons_of_pos l₂ ha
  | cons b bs ih =>
    have hb : ¬ p b = true := by
      rw [h₁ b (List.mem_cons_self b bs)]; exact Bool.false_ne_true
    show ((b :: (bs ++ a :: l₂)).find? p) = some a
    rw [List.find?_cons_of_neg _ hb]
    exact ih (fun x hx => h₁ x (List.mem_cons_of_mem b hx))

theorem find?_updateFirst {α : Type} (p : α → Bool) (f : α → α)
    (hpf : ∀ x, p (f x) = p x) {l : List α} {a : α} (h : l.find? p = some a) :
    (updateFirst p f l).find? p = some (f a) := by
  obtain ⟨l₁, l₂, _, hl₁, hpa, hup⟩ := updateFirst_of_find?_some p f h
  rw [hup]
  exact find?_append_cons p l₁ (f a) l₂ hl₁ (by rw [hpf]; exact hpa)

theorem mem_updateFirst {α : Type} (p : α → Bool) (f : α → α) :
    ∀ {l : List α} {x : α}, x ∈ updateFirst p f l →
      x ∈ l ∨ ∃ a, a ∈ l ∧ p a = true ∧ x = f a := by
  intro l
  induction l with
  | nil => intro x hx; exact absurd hx (by simp [updateFirst])
  | cons b bs ih =>
    intro x hx
    by_cases hp : p b
    · simp only [updateFirst, hp, if_pos] at hx
      rcases List.mem_cons.1 hx with hx | hx
      · exact Or.inr ⟨b, List.mem_cons_self b bs, hp, hx⟩
      · exact Or.inl (List.mem_cons_of_mem b hx)
    · simp only [updateFirst, hp, Bool.false_eq_true, if_false] at hx
      rcases List.mem_cons.1 hx with hx | hx
      · exact Or.inl (by rw [hx]; exact List.mem_cons_self b bs)
      · rcases ih hx with hx | ⟨a, ha, hpa, hfa⟩
        · exact Or.inl (List.mem_cons_of_mem b hx)
        · exact Or.inr ⟨a, List.mem_cons_of_mem b ha, hpa, hfa⟩

theorem map_updateFirst {α β : Type} (key : α → β) (p : α → Bool) (f : α → α)
    (hk : ∀ a, key (f a) = key a) :
    ∀ l : List α, (updateFirst p f l).map key = l.map key := by
  intro l
  induction l with
  | nil => rfl
  | cons b bs ih =>
    by_cases hp : p b
    · simp [updateFirst, hp, hk]
    · simp [updateFirst, hp, ih]

/-- With pairwise-distinct keys, a record found under a key-plus-extra filter is
also the first record matching the key alone. -/
theorem find?_key_of_nodup {α : Type} (key : α → Nat) (q : α → Bool) :
    ∀ {l : List α} {k : Nat} {a : α}, (l.map key).Nodup →
      l.find? (fun x => key x == k && q x) = some a →
      l.find? (fun x => key x == k) = some a := by
  intro l
  induction l with
  | nil => intro k a _ h; simp [List.find?] at h
  | cons b bs ih =>
    intro k a hnd h
    rw [List.map_cons, List.nodup_cons] at hnd
    by_cases hbk : (key b == k) = true
    · by_cases hq : q b = true
      · rw [List.find?_cons_of_pos bs (by rw [hbk, hq]; rfl)] at h
        rw [List.find?_cons_of_pos bs hbk]
        exact h
      · exfalso
        rw [List.find?_cons_of_neg bs
          (by rw [Bool.eq_false_iff.2 hq, Bool.and_false]; exact Bool.false_ne_true)] at h
        have hmem : a ∈ bs := List.mem_of_find?_eq_some h
        have hpa := List.find?_some h
        simp only [Bool.and_eq_true, beq_iff_eq] at hpa
        have hbk' : key b = k := beq_iff_eq.1 hbk
        exact hnd.1 (by rw [hbk', ← hpa.1]; exact List.mem_map_of_mem key hmem)
    · rw [List.find?_cons_of_neg bs
        (by rw [Bool.eq_false_iff.2 hbk, Bool.false_and]; exact Bool.false_ne_true)] at h
      rw [List.find?_cons_of_neg bs hbk]
      exact ih hnd.2 h

/-! Preservation of store well-formedness by each handler. -/

theorem hostelWf_create_room (st : HostelState) (claims : Claims)
    (room_data : RoomRequest) (now : Int) (hcap : 0 ≤ room_data.capacity)
    (hwf : HostelWf st) : HostelWf (create_room st claims room_data now).2 := by
  obtain ⟨hbounds, hnodup, hlt⟩ := hwf
  simp only [create_room]
  refine ⟨?_, ?_, ?_⟩
  · intro r hr
    rcases List.mem_append.1 hr with hr | hr
    · exact hbounds r hr
    · rw [List.mem_singleton] at hr
      subst hr
      exact ⟨le_refl 0, hcap⟩
  · rw [List.map_append, List.nodup_append]
    refine ⟨hnodup, List.nodup_singleton _, ?_⟩
    intro x hx hy
    simp only [List.map_cons, List.map_nil, List.mem_singleton] at hy
    obtain ⟨r, hr, hrid⟩ := List.mem_map.1 hx
    subst hy
    exact absurd hrid (Nat.ne_of_lt (hlt r hr))
  · intro r hr
    rcases List.mem_append.1 hr with hr | hr
    · exact Nat.lt_succ_of_lt (hlt r hr)
    · rw [List.mem_singleton] at hr
      subst hr
      exact Nat.lt_succ_self _

theorem hostelWf_allocate_room (st : HostelState) (claims : Claims)
    (allocation_data : AllocationRequest) (now : Int) (hwf : HostelWf st) :
    HostelWf (allocate_room st claims allocation_data now).2 := by
  cases hpar : parseObjectId allocation_data.room_id with
  | none =>
    simp only [allocate_room, hpar]
    exact hwf
  | some room_obj_id =>
    cases hfind : st.rooms.find? (fun r =>
        r.id == room_obj_id && r.campus_id == claims.campus_id) with
    | none =>
      simp only [allocate_room, hpar, hfind]
      exact hwf
    | some room =>
      by_cases hfull : room.occupied ≥ room.capacity
      · simp only [allocate_room, hpar, hfind]
        rw [if_pos hfull]
        exact hwf
      · simp only [allocate_room, hpar, hfind]
        rw [if_neg hfull]
        obtain ⟨hbounds, hnodup, hlt⟩ := hwf
        have hid : st.rooms.find? (fun r => r.id == room_obj_id) = some room :=
          find?_key_of_nodup Room.id (fun r => r.campus_id == claims.campus_id)
            hnodup hfind
        obtain ⟨l₁, l₂, heq, hl₁, _, hup⟩ := updateFirst_of_find?_some
          (fun r : Room => r.id == room_obj_id)
          (fun r : Room => { r with occupied := r.occupied + 1 }) hid
        have hroom : room ∈ st.rooms := List.mem_of_find?_eq_some hid
        have hocc : room.occupied < room.capacity := lt_of_not_le hfull
        refine ⟨?_, ?_, ?_⟩
        · show ∀ r ∈ updateFirst _ _ st.rooms, 0 ≤ r.occupied ∧ r.occupied ≤ r.capacity
          rw [hup]
          intro r hr
          rcases List.mem_append.1 hr with hr | hr
          · have hmem : r ∈ st.rooms := by
              rw [heq]; exact List.mem_append.2 (Or.inl hr)
            exact hbounds r hmem
          · rcases List.mem_cons.1 hr with hr | hr
            · rw [hr]
              refine ⟨?_, ?_⟩
              · have := (hbounds room hroom).1
                show 0 ≤ room.occupied + 1
                omega
              · show room.occupied + 1 ≤ room.capacity
                omega
            · have hmem : r ∈ st.rooms := by
                rw [heq]
                exact List.mem_append.2 (Or.inr (List.mem_cons_of_mem _ hr))
              exact hbounds r hmem
        · show ((updateFirst _ _ st.rooms).map Room.id).Nodup
          rw [map_updateFirst Room.id (fun r : Room => r.id == room_obj_id)
            (fun r : Room => { r with occupied := r.occupied + 1 })
            (fun a => rfl) st.rooms]
          exact hnodup
        · show ∀ r ∈ updateFirst _ _ st.rooms, r.id < st.nextId + 1
          intro r hr
          rcases mem_updateFirst _ _ hr with hr | ⟨a, ha, _, hfa⟩
          · exact Nat.lt_succ_of_lt (hlt r hr)
          · rw [hfa]
            exact Nat.lt_succ_of_lt (hlt a ha)

theorem libraryWf_add_book (st : LibraryState) (claims : Claims)
    (book_data : BookRequest) (now : Int) (hcap : 0 ≤ book_data.total_copies)
    (hwf : LibraryWf st) : LibraryWf (add_book st claims book_data now).2 := by
  obtain ⟨hbounds, hnodup, hlt⟩ := hwf
  simp only [add_book]
  refine ⟨?_, ?_, ?_⟩
  · intro b hb
    rcases List.mem_append.1 hb with hb | hb
    · exact hbounds b hb
    · rw [List.mem_singleton] at hb
      subst hb
      exact hcap
  · rw [List.map_append, List.nodup_append]
    refine ⟨hnodup, List.nodup_singleton _, ?_⟩
    intro x hx hy
    simp only [List.map_cons, List.map_nil, List.mem_singleton] at hy
    obtain ⟨b, hb, hbid⟩ := List.mem_map.1 hx
    subst hy
    exact absurd hbid (Nat.ne_of_lt (hlt b hb))
  · intro b hb
    rcases List.mem_append.1 hb with hb | hb
    · exact Nat.lt_succ_of_lt (hlt b hb)
    · rw [List.mem_singleton] at hb
      subst hb
      exact Nat.lt_succ_self _

theorem libraryWf_issue_book (st : LibraryState) (claims : Claims)
    (issue_data : IssueRequest) (now : Int) (hwf : LibraryWf st) :
    LibraryWf (issue_book st claims issue_data now).2 := by
  cases hpar : parseObjectId issue_data.book_id with
  | none =>
    simp only [issue_book, hpar]
    exact hwf
  | some book_obj_id =>
    cases hfind : st.books.find? (fun b =>
        b.id == book_obj_id && b.campus_id == claims.campus_id) with
    | none =>
      simp only [issue_book, hpar, hfind]
      exact hwf
    | some book =>
      by_cases hempty : book.available_copies ≤ 0
      · simp only [issue_book, hpar, hfind]
        rw [if_pos hempty]
        exact hwf
      · simp only [issue_book, hpar, hfind]
        rw [if_neg hempty]
        obtain ⟨hbounds, hnodup, hlt⟩ := hwf
        have hid : st.books.find? (fun b => b.id == book_obj_id) = some book :=
          find?_key_of_nodup Book.id (fun b => b.campus_id == claims.campus_id)
            hnodup hfind
        obtain ⟨l₁, l₂, heq, hl₁, _, hup⟩ := updateFirst_of_find?_some
          (fun b : Book => b.id == book_obj_id)
          (fun b : Book => { b with available_copies := b.available_copies - 1 }) hid
        have hpos : 0 < book.available_copies := lt_of_not_le hempty
        refine ⟨?_, ?_, ?_⟩
        · show ∀ b ∈ updateFirst _ _ st.books, 0 ≤ b.available_copies
          rw [hup]
          intro b hb
          rcases List.mem_append.1 hb with hb | hb
          · have hmem : b ∈ st.books := by
              rw [heq]; exact List.mem_append.2 (Or.inl hb)
            exact hbounds b hmem
          · rcases List.mem_cons.1 hb with hb | hb
            · rw [hb]
              show 0 ≤ book.available_copies - 1
              omega
            · have hmem : b ∈ st.books := by
                rw [heq]
                exact List.mem_append.2 (Or.inr (List.mem_cons_of_mem _ hb))
              exact hbounds b hmem
        · show ((updateFirst _ _ st.books).map Book.id).Nodup
          rw [map_updateFirst Book.id (fun b : Book => b.id == book_obj_id)
            (fun b : Book => { b with available_copies := b.available_copies - 1 })
            (fun a => rfl) st.books]
          exact hnodup
        · show ∀ b ∈ updateFirst _ _ st.books, b.id < st.nextId + 1
          intro b hb
          rcases mem_updateFirst _ _ hb with hb | ⟨a, ha, _, hfa⟩
          · exact Nat.lt_succ_of_lt (hlt b hb)
          · rw [hfa]
            exact Nat.lt_succ_of_lt (hlt a ha)

theorem libraryWf_return_book (st : LibraryState) (claims : Claims)
    (return_data : ReturnRequest) (now : Int) (hwf : LibraryWf st) :
    LibraryWf (return_book st claims return_data now).2 := by
  cases hpar : parseObjectId return_data.issue_id with
  | none =>
    simp only [return_book, hpar]
    exact hwf
  | some issue_obj_id =>
    cases hfind : st.book_issues.find? (fun i =>
        i.id == issue_obj_id && i.campus_id == claims.campus_id) with
    | none =>
      simp only [return_book, hpar, hfind]
      exact hwf
    | some issue =>
      cases hbpar : parseObjectId issue.book_id with
      | none =>
        simp only [return_book, hpar, hfind, hbpar]
        exact hwf
      | some book_obj_id =>
        simp only [return_book, hpar, hfind, hbpar]
        obtain ⟨hbounds, hnodup, hlt⟩ := hwf
        refine ⟨?_, ?_, ?_⟩
        · show ∀ b ∈ updateFirst _ _ st.books, 0 ≤ b.available_copies
          intro b hb
          rcases mem_updateFirst _ _ hb with hb | ⟨a, ha, _, hfa⟩
          · exact hbounds b hb
          · rw [hfa]
            have := hbounds a ha
            show 0 ≤ a.available_copies + 1
            omega
        · show ((updateFirst _ _ st.books).map Book.id).Nodup
          rw [map_updateFirst Book.id (fun b : Book => b.id == book_obj_id)
            (fun b : Book => { b with available_copies := b.available_copies + 1 })
            (fun a => rfl) st.books]
          exact hnodup
        · show ∀ b ∈ updateFirst _ _ st.books, b.id < st.nextId
          intro b hb
          rcases mem_updateFirst _ _ hb with hb | ⟨a, ha, _, hfa⟩
          · exact hlt b hb
          · rw [hfa]
            exact hlt a ha

/-! Concrete sample data used to instantiate and refute claims. -/

/-- A caller of tenant (campus) "A". -/
def exClaimsA : Claims := ⟨"admin1", "admin", "A", 0⟩

/-- A half-occupied room of capacity 2 in campus "A". -/
def exRoom1 : Room := ⟨1, "101", "H", 2, 1, "double", 0, "A", 0⟩

/-- A hostel store with one half-occupied room of capacity 2 in campus "A". -/
def exHost1 : HostelState := ⟨[exRoom1], [], 2⟩

/-- The one-copy book of campus "A" as registered in `exLib1`. -/
def exBook1 : Book := ⟨1, "isbn1", "T", "Au", "Cat", 1, 1, "A", 0⟩

/-- The empty library store. -/
def exLib0 : LibraryState := ⟨[], [], 1⟩

/-- After registering a one-copy book in campus "A". -/
def exLib1 : LibraryState :=
  (add_book exLib0 exClaimsA ⟨"isbn1", "T", "Au", "Cat", 1⟩ 0).2

/-- After issuing that book to student "stu" for 7 days at time 0. -/
def exLib2 : LibraryState :=
  (issue_book exLib1 exClaimsA ⟨"1", "stu", 7⟩ 0).2

/-- After returning the issue on time (time 0). -/
def exLib3 : LibraryState :=
  (return_book exLib2 exClaimsA ⟨"2"⟩ 0).2

/-- After returning the same, already returned, issue a second time. -/
def exLib4 : LibraryState :=
  (return_book exLib3 exClaimsA ⟨"2"⟩ 0).2

/-- The issue record of `exLib3`: returned on time, no fine. -/
def exIssueRet : BookIssue :=
  ⟨2, "1", "T", "stu", 0, 604800000, some 0, "returned", 0, "A"⟩

/-- An already-approved leave request in campus "A". -/
def exLeave1 : LeaveRequest :=
  ⟨1, "emp1", "sick", "d1", "d2", "flu", "approved", "A", 0⟩

/-- An HR store holding only `exLeave1`. -/
def exHr1 : HrState := ⟨[exLeave1], 2⟩

/-- A pending tuition fee in campus "A". -/
def exFee1 : FeeStructure := ⟨1, "stu", "tuition", 100, "2026-01-01", "pending", "A", 0⟩

/-- A finance store holding only `exFee1` and no payments. -/
def exFin1 : FinanceState := ⟨[exFee1], [], 2⟩

/-- A hostel store where student "stu" already holds an active allocation on
room 1 of campus "A". -/
def exHost2 : HostelState :=
  ⟨[exRoom1], [⟨10, "stu", "1", "H", "101", 0, "active", "A"⟩], 11⟩

/-- A two-copy campus-"A" book with one copy already issued. -/
def exBookDup : Book := ⟨1, "isbn1", "T", "Au", "Cat", 2, 1, "A", 0⟩

/-- A library store where student "stu" already holds an active issue on
`exBookDup`, which still has one available copy. -/
def exLibDup : LibraryState :=
  ⟨[exBookDup], [⟨2, "1", "T", "stu", 0, 604800000, none, "issued", 0, "A"⟩], 3⟩

/-- A pending leave request that lives in campus "B". -/
def exLeaveB : LeaveRequest := ⟨1, "emp1", "sick", "d1", "d2", "flu", "pending", "B", 0⟩

/-- An HR store holding only the campus-"B" request `exLeaveB`. -/
def exHrB : HrState := ⟨[exLeaveB], 2⟩

/-- A hostel store whose only room lives in campus "B". -/
def exHostB : HostelState := ⟨[⟨1, "101", "H", 2, 1, "double", 0, "B", 0⟩], [], 2⟩

/-- A library store whose only book lives in campus "B". -/
def exLibB : LibraryState := ⟨[⟨1, "isbn1", "T", "Au", "Cat", 1, 1, "B", 0⟩], [], 2⟩

/-- A library store whose only issue record lives in campus "B". -/
def exLibIssB : LibraryState :=
  ⟨[], [⟨2, "1", "T", "stu", 0, 604800000, none, "issued", 0, "B"⟩], 3⟩

/-- A campus-"B" book that a campus-"A" issue record points at. -/
def exBookB : Book := ⟨7, "isbnB", "TB", "AuB", "CatB", 3, 0, "B", 0⟩

/-- A library store where the campus-"A" issue record references the
campus-"B" book `exBookB`. -/
def exLibCross : LibraryState :=
  ⟨[exBookB], [⟨2, "7", "TB", "stu", 0, 604800000, none, "issued", 0, "A"⟩], 3⟩

/-- Specification-side whole-days-elapsed count, written from the spec's
words ("a non-negative integer count of whole days now exceeds dueDate; zero
when now ≤ dueDate"), to be compared with the code's `computeFine`. -/
def daysElapsed (due now : Int) : Int :=
  if now ≤ due then 0 else (now - due) / msPerDay

/-! Claim theorems. -/

/-- C1 (amended): starting from a well-formed store, every sequence of
registration / Allocate / Release operations keeps each room's `occupied`
between 0 and `capacity`, and keeps each book's `available_copies`
nonnegative.  (The claimed upper bound `available_copies ≤ total_copies` for
books is refuted by `C1_counterexample`: a Release on an already-returned
issue increments `available_copies` unboundedly.) -/
theorem C1_pool_occupancy_bounds :
    (∀ st st2 : HostelState, HostelWf st →
      Relation.ReflTransGen HostelStep st st2 →
      ∀ r ∈ st2.rooms, 0 ≤ r.occupied ∧ r.occupied ≤ r.capacity) ∧
    (∀ st st2 : LibraryState, LibraryWf st →
      Relation.ReflTransGen LibraryStep st st2 →
      ∀ b ∈ st2.books, 0 ≤ b.available_copies) := by
  constructor
  · intro st st2 hwf hsteps
    suffices h : HostelWf st2 by exact h.1
    induction hsteps with
    | refl => exact hwf
    | tail _ hstep ih =>
      cases hstep with
      | create claims room_data now hcap =>
        exact hostelWf_create_room _ claims room_data now hcap ih
      | alloc claims allocation_data now =>
        exact hostelWf_allocate_room _ claims allocation_data now ih
  · intro st st2 hwf hsteps
    suffices h : LibraryWf st2 by exact h.1
    induction hsteps with
    | refl => exact hwf
    | tail _ hstep ih =>
      cases hstep with
      | add claims book_data now hcap =>
        exact libraryWf_add_book _ claims book_data now hcap ih
      | issue claims issue_data now =>
        exact libraryWf_issue_book _ claims issue_data now ih
      | ret claims return_data now =>
        exact libraryWf_return_book _ claims return_data now ih

/-- Witness for C1 at concrete stores (reflexive trace). -/
theorem C1_pool_occupancy_bounds_witness :
    HostelWf exHost1 ∧ LibraryWf exLib1 ∧
    (∀ r ∈ exHost1.rooms, 0 ≤ r.occupied ∧ r.occupied ≤ r.capacity) ∧
    (∀ b ∈ exLib1.books, 0 ≤ b.available_copies) :=
  ⟨by decide, by decide,
   C1_pool_occupancy_bounds.1 exHost1 exHost1 (by decide) Relation.ReflTransGen.refl,
   C1_pool_occupancy_bounds.2 exLib1 exLib1 (by decide) Relation.ReflTransGen.refl⟩

/-- C1 is false as stated for books: from a well-formed store, the sequence
add-book (1 copy), issue, return, return again reaches a state whose book has
`available_copies = 2 > 1 = total_copies`, because `return_book` never checks
the issue's status before incrementing the counter. -/
theorem C1_counterexample :
    ¬ (∀ st st2 : LibraryState, LibraryWf st →
        Relation.ReflTransGen LibraryStep st st2 →
        ∀ b ∈ st2.books, b.available_copies ≤ b.total_copies) := by
  intro h
  have t1 : Relation.ReflTransGen LibraryStep exLib0 exLib1 :=
    Relation.ReflTransGen.single
      (LibraryStep.add exLib0 exClaimsA ⟨"isbn1", "T", "Au", "Cat", 1⟩ 0 (by decide))
  have t2 : Relation.ReflTransGen LibraryStep exLib0 exLib2 :=
    Relation.ReflTransGen.tail t1
      (LibraryStep.issue exLib1 exClaimsA ⟨"1", "stu", 7⟩ 0)
  have t3 : Relation.ReflTransGen LibraryStep exLib0 exLib3 :=
    Relation.ReflTransGen.tail t2
      (LibraryStep.ret exLib2 exClaimsA ⟨"2"⟩ 0)
  have t4 : Relation.ReflTransGen LibraryStep exLib0 exLib4 :=
    Relation.ReflTransGen.tail t3
      (LibraryStep.ret exLib3 exClaimsA ⟨"2"⟩ 0)
  have hmem : (⟨1, "isbn1", "T", "Au", "Cat", 1, 2, "A", 0⟩ : Book) ∈ exLib4.books := by
    decide
  have hb := h exLib0 exLib4 (by decide) t4 _ hmem
  exact absurd hb (by decide)

/-- C2: an Allocate against a pool that exists in the caller's tenant fails
(BadRequest, the CapacityExceeded outcome) with the store untouched when the
used count equals capacity (rooms: `occupied = capacity`; books:
`available_copies = 0`), and otherwise succeeds, inserting exactly one
active/issued record and moving the counter by exactly one. -/
theorem C2_allocate_capacity :
    (∀ (st : HostelState) (claims : Claims) (allocation_data : AllocationRequest)
      (now : Int) (room_obj_id : Nat) (room : Room),
      parseObjectId allocation_data.room_id = some room_obj_id →
      (st.rooms.map Room.id).Nodup →
      st.rooms.find? (fun r => r.id == room_obj_id &&
        r.campus_id == claims.campus_id) = some room →
      ((room.occupied = room.capacity →
        allocate_room st claims allocation_data now =
          (Resp.badRequest "Room is full", st)) ∧
       (room.occupied < room.capacity →
        (allocate_room st claims allocation_data now).1 =
          Resp.ok "Room allocated successfully" [] ∧
        (allocate_room st claims allocation_data now).2.room_allocations =
          st.room_allocations ++
            [{ id := st.nextId, student_id := allocation_data.student_id,
               room_id := allocation_data.room_id, hostel_name := room.hostel_name,
               room_number := room.room_number, allocation_date := now,
               status := "active", campus_id := claims.campus_id }] ∧
        (allocate_room st claims allocation_data now).2.rooms.find?
            (fun r => r.id == room_obj_id) =
          some { room with occupied := room.occupied + 1 }))) ∧
    (∀ (st : LibraryState) (claims : Claims) (issue_data : IssueRequest)
      (now : Int) (book_obj_id : Nat) (book : Book),
      parseObjectId issue_data.book_id = some book_obj_id →
      (st.books.map Book.id).Nodup →
      st.books.find? (fun b => b.id == book_obj_id &&
        b.campus_id == claims.campus_id) = some book →
      ((book.available_copies = 0 →
        issue_book st claims issue_data now =
          (Resp.badRequest "Book not available", st)) ∧
       (0 < book.available_copies →
        (issue_book st claims issue_data now).1 =
          Resp.ok "Book issued successfully" [now + issue_data.days * msPerDay] ∧
        (issue_book st claims issue_data now).2.book_issues =
          st.book_issues ++
            [{ id := st.nextId, book_id := issue_data.book_id,
               book_title := book.title, student_id := issue_data.student_id,
               issue_date := now, due_date := now + issue_data.days * msPerDay,
               return_date := none, status := "issued", fine_amount := 0,
               campus_id := claims.campus_id }] ∧
        (issue_book st claims issue_data now).2.books.find?
            (fun b => b.id == book_obj_id) =
          some { book with available_copies := book.available_copies - 1 }))) := by
  constructor
  · intro st claims allocation_data now room_obj_id room hpar hnodup hfind
    constructor
    · intro heq
      have hge : room.occupied ≥ room.capacity := le_of_eq heq.symm
      simp only [allocate_room, hpar, hfind]
      rw [if_pos hge]
    · intro hlt
      have hnge : ¬ room.occupied ≥ room.capacity := not_le.2 hlt
      simp only [allocate_room, hpar, hfind]
      rw [if_neg hnge]
      refine ⟨rfl, rfl, ?_⟩
      have hid : st.rooms.find? (fun r => r.id == room_obj_id) = some room :=
        find?_key_of_nodup Room.id (fun r => r.campus_id == claims.campus_id)
          hnodup hfind
      exact find?_updateFirst (fun r : Room => r.id == room_obj_id)
        (fun r : Room => { r with occupied := r.occupied + 1 }) (fun x => rfl) hid
  · intro st claims issue_data now book_obj_id book hpar hnodup hfind
    constructor
    · intro heq
      have hle : book.available_copies ≤ 0 := le_of_eq heq
      simp only [issue_book, hpar, hfind]
      rw [if_pos hle]
    · intro hlt
      have hnle : ¬ book.available_copies ≤ 0 := not_le.2 hlt
      simp only [issue_book, hpar, hfind]
      rw [if_neg hnle]
      refine ⟨rfl, rfl, ?_⟩
      have hid : st.books.find? (fun b => b.id == book_obj_id) = some book :=
        find?_key_of_nodup Book.id (fun b => b.campus_id == claims.campus_id)
          hnodup hfind
      exact find?_updateFirst (fun b : Book => b.id == book_obj_id)
        (fun b : Book => { b with available_copies := b.available_copies - 1 })
        (fun x => rfl) hid

/-- Witness for C2: a successful room allocation on `exHost1` and a successful
book issue on `exLib1`, with every hypothesis discharged concretely. -/
theorem C2_allocate_capacity_witness :
    (parseObjectId "1" = some 1 ∧
     (exHost1.rooms.map Room.id).Nodup ∧
     exHost1.rooms.find? (fun r => r.id == 1 &&
       r.campus_id == exClaimsA.campus_id) = some exRoom1 ∧
     exRoom1.occupied < exRoom1.capacity ∧
     ((allocate_room exHost1 exClaimsA ⟨"stu", "1"⟩ 5).1 =
        Resp.ok "Room allocated successfully" [] ∧
      (allocate_room exHost1 exClaimsA ⟨"stu", "1"⟩ 5).2.room_allocations =
        exHost1.room_allocations ++
          [{ id := exHost1.nextId, student_id := "stu", room_id := "1",
             hostel_name := exRoom1.hostel_name, room_number := exRoom1.room_number,
             allocation_date := 5, status := "active",
             campus_id := exClaimsA.campus_id }] ∧
      (allocate_room exHost1 exClaimsA ⟨"stu", "1"⟩ 5).2.rooms.find?
          (fun r => r.id == 1) =
        some { exRoom1 with occupied := exRoom1.occupied + 1 })) ∧
    (parseObjectId "1" = some 1 ∧
     (exLib1.books.map Book.id).Nodup ∧
     exLib1.books.find? (fun b => b.id == 1 &&
       b.campus_id == exClaimsA.campus_id) = some exBook1 ∧
     0 < exBook1.available_copies ∧
     ((issue_book exLib1 exClaimsA ⟨"1", "stu", 7⟩ 0).1 =
        Resp.ok "Book issued successfully" [0 + (7 : Int) * msPerDay] ∧
      (issue_book exLib1 exClaimsA ⟨"1", "stu", 7⟩ 0).2.book_issues =
        exLib1.book_issues ++
          [{ id := exLib1.nextId, book_id := "1", book_title := exBook1.title,
             student_id := "stu", issue_date := 0,
             due_date := 0 + (7 : Int) * msPerDay, return_date := none,
             status := "issued", fine_amount := 0,
             campus_id := exClaimsA.campus_id }] ∧
      (issue_book exLib1 exClaimsA ⟨"1", "stu", 7⟩ 0).2.books.find?
          (fun b => b.id == 1) =
        some { exBook1 with available_copies := exBook1.available_copies - 1 })) :=
  ⟨⟨by decide, by decide, by decide, by decide,
    (C2_allocate_capacity.1 exHost1 exClaimsA ⟨"stu", "1"⟩ 5 1 exRoom1
      (by decide) (by decide) (by decide)).2 (by decide)⟩,
   ⟨by decide, by decide, by decide, by decide,
    (C2_allocate_capacity.2 exLib1 exClaimsA ⟨"1", "stu", 7⟩ 0 1 exBook1
      (by decide) (by decide) (by decide)).2 (by decide)⟩⟩

/-- C3 is false as stated: in `exLib3` the only issue record is already
terminal (`"returned"`), yet a second Release succeeds AND overwrites the
record (status, fine and return date change) AND increments the book's
`available_copies` a second time, from 1 to 2. -/
theorem C3_counterexample :
    exLib3.book_issues.map (fun i => (i.status, i.fine_amount, i.return_date)) =
      [("returned", 0, some 0)] ∧
    exLib3.books.map Book.available_copies = [1] ∧
    (return_book exLib3 exClaimsA ⟨"2"⟩ 691200000).1 =
      Resp.ok "Book returned successfully" [5] ∧
    (return_book exLib3 exClaimsA ⟨"2"⟩ 691200000).2.book_issues.map
      (fun i => (i.status, i.fine_amount, i.return_date)) =
      [("returned_with_fine", 5, some 691200000)] ∧
    (return_book exLib3 exClaimsA ⟨"2"⟩ 691200000).2.books.map
      Book.available_copies = [2] := by
  decide

/-- C3 (amended): `return_book` never inspects the issue's status, so Release
on an already-terminal allocation behaves exactly like a first Release: it
succeeds, overwrites the record with a freshly computed return date, status
and fine, and increments the book's `available_copies` again. -/
theorem C3_release_reapplies :
    ∀ (st : LibraryState) (claims : Claims) (return_data : ReturnRequest)
      (now : Int) (issue_obj_id : Nat) (issue : BookIssue)
      (book_obj_id : Nat) (book : Book),
      parseObjectId return_data.issue_id = some issue_obj_id →
      (st.book_issues.map BookIssue.id).Nodup →
      st.book_issues.find? (fun i => i.id == issue_obj_id &&
        i.campus_id == claims.campus_id) = some issue →
      (issue.status = "returned" ∨ issue.status = "returned_with_fine") →
      parseObjectId issue.book_id = some book_obj_id →
      st.books.find? (fun b => b.id == book_obj_id) = some book →
      (return_book st claims return_data now).1 =
        Resp.ok "Book returned successfully" [computeFine issue.due_date now] ∧
      (return_book st claims return_data now).2.book_issues.find?
          (fun i => i.id == issue_obj_id) =
        some { issue with return_date := some now, status := returnStatus issue.due_date now, fine_amount := computeFine issue.due_date now } ∧
      (return_book st claims return_data now).2.books.find?
          (fun b => b.id == book_obj_id) =
        some { book with available_copies := book.available_copies + 1 } := by
  intro st claims return_data now issue_obj_id issue book_obj_id book
    hpar hnodup hfind _hterm hbpar hbfind
  refine ⟨?_, ?_, ?_⟩
  · simp only [return_book, hpar, hfind, hbpar]
  · simp only [return_book, hpar, hfind, hbpar]
    have hid : st.book_issues.find? (fun i => i.id == issue_obj_id) = some issue :=
      find?_key_of_nodup BookIssue.id (fun i => i.campus_id == claims.campus_id)
        hnodup hfind
    exact find?_updateFirst (fun i : BookIssue => i.id == issue_obj_id)
      (fun i : BookIssue => { i with return_date := some now, status := returnStatus issue.due_date now, fine_amount := computeFine issue.due_date now })
      (fun x => rfl) hid
  · simp only [return_book, hpar, hfind, hbpar]
    exact find?_updateFirst (fun b : Book => b.id == book_obj_id)
      (fun b : Book => { b with available_copies := b.available_copies + 1 })
      (fun x => rfl) hbfind

/-- Witness for C3 on `exLib3`: the second Release re-applied to the
terminal record `exIssueRet`. -/
theorem C3_release_reapplies_witness :
    (parseObjectId "2" = some 2 ∧
     (exLib3.book_issues.map BookIssue.id).Nodup ∧
     exLib3.book_issues.find? (fun i => i.id == 2 &&
       i.campus_id == exClaimsA.campus_id) = some exIssueRet ∧
     exIssueRet.status = "returned" ∧
     parseObjectId exIssueRet.book_id = some 1 ∧
     exLib3.books.find? (fun b => b.id == 1) = some exBook1) ∧
    ((return_book exLib3 exClaimsA ⟨"2"⟩ 691200000).1 =
       Resp.ok "Book returned successfully"
         [computeFine exIssueRet.due_date 691200000] ∧
     (return_book exLib3 exClaimsA ⟨"2"⟩ 691200000).2.book_issues.find?
         (fun i => i.id == 2) =
       some { exIssueRet with return_date := some 691200000, status := returnStatus exIssueRet.due_date 691200000, fine_amount := computeFine exIssueRet.due_date 691200000 } ∧
     (return_book exLib3 exClaimsA ⟨"2"⟩ 691200000).2.books.find?
         (fun b => b.id == 1) =
       some { exBook1 with available_copies := exBook1.available_copies + 1 }) :=
  ⟨⟨by decide, by decide, by decide, by decide, by decide, by decide⟩,
   C3_release_reapplies exLib3 exClaimsA ⟨"2"⟩ 691200000 2 exIssueRet 1 exBook1
     (by decide) (by decide) (by decide) (Or.inl (by decide)) (by decide) (by decide)⟩

/-- C4 is false as stated: `exLeave1` is already `"approved"`, yet requesting
the unreachable target status `"rejected"` succeeds (no InvalidTransition)
and overwrites the record's status. -/
theorem C4_counterexample :
    exHr1.leave_requests.map (fun l => l.status) = ["approved"] ∧
    (approve_leave exHr1 exClaimsA ⟨"1", "rejected"⟩).1 =
      Resp.ok "Leave request updated successfully" [] ∧
    (approve_leave exHr1 exClaimsA ⟨"1", "rejected"⟩).2.leave_requests.map
      (fun l => l.status) = ["rejected"] := by
  decide

/-- C4 (amended): `approve_leave` applies no transition-graph check at all: it
unconditionally overwrites the tenant-matching record's status with the
request's status string and reports success.  Only the idempotent half of the
claim holds: when the requested status equals the current one the store is
returned unchanged. -/
theorem C4_transition_unguarded :
    ∀ (st : HrState) (claims : Claims) (approval_data : LeaveApproval)
      (request_obj_id : Nat) (leaf : LeaveRequest),
      parseObjectId approval_data.request_id = some request_obj_id →
      (st.leave_requests.map LeaveRequest.id).Nodup →
      st.leave_requests.find? (fun l => l.id == request_obj_id &&
        l.campus_id == claims.campus_id) = some leaf →
      (approve_leave st claims approval_data).1 =
        Resp.ok "Leave request updated successfully" [] ∧
      (approve_leave st claims approval_data).2.leave_requests.find?
          (fun l => l.id == request_obj_id) =
        some { leaf with status := approval_data.status } ∧
      (approval_data.status = leaf.status →
        (approve_leave st claims approval_data).2 = st) := by
  intro st claims approval_data request_obj_id leaf hpar hnodup hfind
  have hid : st.leave_requests.find? (fun l => l.id == request_obj_id) = some leaf :=
    find?_key_of_nodup LeaveRequest.id (fun l => l.campus_id == claims.campus_id)
      hnodup hfind
  obtain ⟨l₁, l₂, heq, hl₁, hpa⟩ := find?_split
    (fun l : LeaveRequest => l.id == request_obj_id) hid
  have hcomb := List.find?_some hfind
  have hl₁c : ∀ x ∈ l₁, (x.id == request_obj_id &&
      x.campus_id == claims.campus_id) = false := by
    intro x hx
    rw [hl₁ x hx, Bool.false_and]
  have hup : updateFirst (fun l : LeaveRequest => l.id == request_obj_id &&
      l.campus_id == claims.campus_id)
      (fun l : LeaveRequest => { l with status := approval_data.status })
      st.leave_requests = l₁ ++ { leaf with status := approval_data.status } :: l₂ := by
    rw [heq]
    exact updateFirst_append _ _ l₁ leaf l₂ hl₁c hcomb
  refine ⟨?_, ?_, ?_⟩
  · simp only [approve_leave, hpar]
  · simp only [approve_leave, hpar]
    rw [hup]
    exact find?_append_cons _ l₁ _ l₂ hl₁ hpa
  · intro hstat
    simp only [approve_leave, hpar]
    have hfl : { leaf with status := approval_data.status } = leaf := by
      rw [hstat]
    rw [hup, hfl, ← heq]

/-- Witness for C4 on `exHr1`: re-approving an approved request is a
successful no-op. -/
theorem C4_transition_unguarded_witness :
    (parseObjectId "1" = some 1 ∧
     (exHr1.leave_requests.map LeaveRequest.id).Nodup ∧
     exHr1.leave_requests.find? (fun l => l.id == 1 &&
       l.campus_id == exClaimsA.campus_id) = some exLeave1) ∧
    ((approve_leave exHr1 exClaimsA ⟨"1", "approved"⟩).1 =
       Resp.ok "Leave request updated successfully" [] ∧
     (approve_leave exHr1 exClaimsA ⟨"1", "approved"⟩).2.leave_requests.find?
         (fun l => l.id == 1) = some { exLeave1 with status := "approved" } ∧
     (approve_leave exHr1 exClaimsA ⟨"1", "approved"⟩).2 = exHr1) :=
  ⟨⟨by decide, by decide, by decide⟩,
   have h := C4_transition_unguarded exHr1 exClaimsA ⟨"1", "approved"⟩ 1 exLeave1
     (by decide) (by decide) (by decide)
   ⟨h.1, h.2.1, h.2.2 (by decide)⟩⟩

/-- C5 is false as stated: a payment referencing the unparseable fee id "xyz"
fails (BadRequest) AFTER the payment has been inserted — the payment half is
persisted alone, while the fee stays pending. -/
theorem C5_counterexample :
    exFin1.payments = [] ∧
    (create_payment exFin1 exClaimsA ⟨"stu", "xyz", 100, "cash", "tx1"⟩ 10).1 =
      Resp.badRequest "invalid id" ∧
    (create_payment exFin1 exClaimsA ⟨"stu", "xyz", 100, "cash", "tx1"⟩ 10).2.payments.map
      (fun p => p.transaction_id) = ["tx1"] ∧
    (create_payment exFin1 exClaimsA ⟨"stu", "xyz", 100, "cash", "tx1"⟩ 10).2.fees.map
      (fun f => f.status) = ["pending"] := by
  decide

/-- C5 (amended): the Payment insert and the fee status flip are two separate
sequential writes, not one atomic step.  The payment is always persisted
first; an unparseable fee reference then fails with the payment already
stored and the fees untouched; a parseable reference always reports success,
flipping the fee to paid when it matches the caller's tenant and silently
touching nothing when it does not. -/
theorem C5_payment_not_atomic :
    ∀ (st : FinanceState) (claims : Claims) (payment_data : PaymentRequest) (now : Int),
      ((parseObjectId payment_data.fee_id = none →
        (create_payment st claims payment_data now).1 = Resp.badRequest "invalid id" ∧
        (create_payment st claims payment_data now).2.payments =
          st.payments ++ [{ id := st.nextId, student_id := payment_data.student_id, fee_id := payment_data.fee_id, amount := payment_data.amount, payment_method := payment_data.payment_method, transaction_id := payment_data.transaction_id, payment_date := now, campus_id := claims.campus_id }] ∧
        (create_payment st claims payment_data now).2.fees = st.fees) ∧
       (∀ fee_obj_id : Nat, parseObjectId payment_data.fee_id = some fee_obj_id →
        (create_payment st claims payment_data now).1 =
          Resp.ok "Payment recorded successfully" [] ∧
        (create_payment st claims payment_data now).2.payments =
          st.payments ++ [{ id := st.nextId, student_id := payment_data.student_id, fee_id := payment_data.fee_id, amount := payment_data.amount, payment_method := payment_data.payment_method, transaction_id := payment_data.transaction_id, payment_date := now, campus_id := claims.campus_id }] ∧
        (st.fees.find? (fun f => f.id == fee_obj_id &&
            f.campus_id == claims.campus_id) = none →
          (create_payment st claims payment_data now).2.fees = st.fees) ∧
        (∀ fee : FeeStructure, (st.fees.map FeeStructure.id).Nodup →
          st.fees.find? (fun f => f.id == fee_obj_id &&
            f.campus_id == claims.campus_id) = some fee →
          (create_payment st claims payment_data now).2.fees.find?
              (fun f => f.id == fee_obj_id) =
            some { fee with status := "paid" }))) := by
  intro st claims payment_data now
  constructor
  · intro hpar
    refine ⟨?_, ?_, ?_⟩ <;> simp only [create_payment, hpar]
  · intro fee_obj_id hpar
    refine ⟨?_, ?_, ?_, ?_⟩
    · simp only [create_payment, hpar]
    · simp only [create_payment, hpar]
    · intro hnone
      simp only [create_payment, hpar]
      exact updateFirst_of_find?_none _ _ hnone
    · intro fee hnodup hfind
      simp only [create_payment, hpar]
      have hid : st.fees.find? (fun f => f.id == fee_obj_id) = some fee :=
        find?_key_of_nodup FeeStructure.id
          (fun f => f.campus_id == claims.campus_id) hnodup hfind
      obtain ⟨l₁, l₂, heq, hl₁, hpa⟩ := find?_split
        (fun f : FeeStructure => f.id == fee_obj_id) hid
      have hcomb := List.find?_some hfind
      have hl₁c : ∀ x ∈ l₁, (x.id == fee_obj_id &&
          x.campus_id == claims.campus_id) = false := by
        intro x hx
        rw [hl₁ x hx, Bool.false_and]
      have hup : updateFirst (fun f : FeeStructure => f.id == fee_obj_id &&
          f.campus_id == claims.campus_id)
          (fun f : FeeStructure => { f with status := "paid" }) st.fees =
          l₁ ++ { fee with status := "paid" } :: l₂ := by
        rw [heq]
        exact updateFirst_append _ _ l₁ fee l₂ hl₁c hcomb
      rw [hup]
      exact find?_append_cons _ l₁ _ l₂ hl₁ hpa

/-- Witness for C5: a payment against the pending fee `exFee1` settles it. -/
theorem C5_payment_not_atomic_witness :
    (parseObjectId "1" = some 1 ∧
     (exFin1.fees.map FeeStructure.id).Nodup ∧
     exFin1.fees.find? (fun f => f.id == 1 &&
       f.campus_id == exClaimsA.campus_id) = some exFee1) ∧
    ((create_payment exFin1 exClaimsA ⟨"stu", "1", 100, "cash", "tx1"⟩ 10).1 =
       Resp.ok "Payment recorded successfully" [] ∧
     (create_payment exFin1 exClaimsA ⟨"stu", "1", 100, "cash", "tx1"⟩ 10).2.fees.find?
         (fun f => f.id == 1) = some { exFee1 with status := "paid" }) :=
  ⟨⟨by decide, by decide, by decide⟩,
   have h := (C5_payment_not_atomic exFin1 exClaimsA
     ⟨"stu", "1", 100, "cash", "tx1"⟩ 10).2 1 (by decide)
   ⟨h.1, h.2.2.2 exFee1 (by decide) (by decide)⟩⟩

/-- C6 is false as stated: in `exHost2` student "stu" already holds an active
allocation on room 1, yet a second Allocate for the same student and room
succeeds, inserts a second active record and increments the counter. -/
theorem C6_counterexample :
    (∃ a ∈ exHost2.room_allocations, a.student_id = "stu" ∧ a.room_id = "1" ∧
      a.status = "active" ∧ a.campus_id = exClaimsA.campus_id) ∧
    (allocate_room exHost2 exClaimsA ⟨"stu", "1"⟩ 5).1 =
      Resp.ok "Room allocated successfully" [] ∧
    (allocate_room exHost2 exClaimsA ⟨"stu", "1"⟩ 5).2.room_allocations.length = 2 ∧
    (allocate_room exHost2 exClaimsA ⟨"stu", "1"⟩ 5).2.rooms.map Room.occupied = [2] := by
  decide

/-- C6 (amended): neither allocator checks for an existing active allocation:
an Allocate whose subject already holds an active allocation on the same pool
in the same tenant behaves exactly like any other Allocate — capacity
permitting it succeeds, inserts a second active record and increments the
counter; no DuplicateAllocation outcome exists in the code. -/
theorem C6_no_duplicate_check :
    (∀ (st : HostelState) (claims : Claims) (allocation_data : AllocationRequest)
      (now : Int) (room_obj_id : Nat) (room : Room),
      parseObjectId allocation_data.room_id = some room_obj_id →
      (st.rooms.map Room.id).Nodup →
      st.rooms.find? (fun r => r.id == room_obj_id &&
        r.campus_id == claims.campus_id) = some room →
      room.occupied < room.capacity →
      (∃ a ∈ st.room_allocations, a.student_id = allocation_data.student_id ∧
        a.room_id = allocation_data.room_id ∧ a.status = "active" ∧
        a.campus_id = claims.campus_id) →
      (allocate_room st claims allocation_data now).1 =
        Resp.ok "Room allocated successfully" [] ∧
      (allocate_room st claims allocation_data now).2.room_allocations =
        st.room_allocations ++
          [{ id := st.nextId, student_id := allocation_data.student_id, room_id := allocation_data.room_id, hostel_name := room.hostel_name, room_number := room.room_number, allocation_date := now, status := "active", campus_id := claims.campus_id }] ∧
      (allocate_room st claims allocation_data now).2.rooms.find?
          (fun r => r.id == room_obj_id) =
        some { room with occupied := room.occupied + 1 }) ∧
    (∀ (st : LibraryState) (claims : Claims) (issue_data : IssueRequest)
      (now : Int) (book_obj_id : Nat) (book : Book),
      parseObjectId issue_data.book_id = some book_obj_id →
      (st.books.map Book.id).Nodup →
      st.books.find? (fun b => b.id == book_obj_id &&
        b.campus_id == claims.campus_id) = some book →
      0 < book.available_copies →
      (∃ a ∈ st.book_issues, a.student_id = issue_data.student_id ∧
        a.book_id = issue_data.book_id ∧ a.status = "issued" ∧
        a.campus_id = claims.campus_id) →
      (issue_book st claims issue_data now).1 =
        Resp.ok "Book issued successfully" [now + issue_data.days * msPerDay] ∧
      (issue_book st claims issue_data now).2.book_issues =
        st.book_issues ++
          [{ id := st.nextId, book_id := issue_data.book_id, book_title := book.title, student_id := issue_data.student_id, issue_date := now, due_date := now + issue_data.days * msPerDay, return_date := none, status := "issued", fine_amount := 0, campus_id := claims.campus_id }] ∧
      (issue_book st claims issue_data now).2.books.find?
          (fun b => b.id == book_obj_id) =
        some { book with available_copies := book.available_copies - 1 }) := by
  constructor
  · intro st claims allocation_data now room_obj_id room hpar hnodup hfind hlt _hdup
    have hnge : ¬ room.occupied ≥ room.capacity := not_le.2 hlt
    refine ⟨?_, ?_, ?_⟩
    · simp only [allocate_room, hpar, hfind]
      rw [if_neg hnge]
    · simp only [allocate_room, hpar, hfind]
      rw [if_neg hnge]
    · simp only [allocate_room, hpar, hfind]
      rw [if_neg hnge]
      have hid : st.rooms.find? (fun r => r.id == room_obj_id) = some room :=
        find?_key_of_nodup Room.id (fun r => r.campus_id == claims.campus_id)
          hnodup hfind
      exact find?_updateFirst (fun r : Room => r.id == room_obj_id)
        (fun r : Room => { r with occupied := r.occupied + 1 }) (fun x => rfl) hid
  · intro st claims issue_data now book_obj_id book hpar hnodup hfind hlt _hdup
    have hnle : ¬ book.available_copies ≤ 0 := not_le.2 hlt
    refine ⟨?_, ?_, ?_⟩
    · simp only [issue_book, hpar, hfind]
      rw [if_neg hnle]
    · simp only [issue_book, hpar, hfind]
      rw [if_neg hnle]
    · simp only [issue_book, hpar, hfind]
      rw [if_neg hnle]
      have hid : st.books.find? (fun b => b.id == book_obj_id) = some book :=
        find?_key_of_nodup Book.id (fun b => b.campus_id == claims.campus_id)
          hnodup hfind
      exact find?_updateFirst (fun b : Book => b.id == book_obj_id)
        (fun b : Book => { b with available_copies := b.available_copies - 1 })
        (fun x => rfl) hid

/-- Witness for C6: the duplicate room Allocate on `exHost2` and the
duplicate book issue on `exLibDup` both go through. -/
theorem C6_no_duplicate_check_witness :
    ((parseObjectId "1" = some 1 ∧
      (exHost2.rooms.map Room.id).Nodup ∧
      exHost2.rooms.find? (fun r => r.id == 1 &&
        r.campus_id == exClaimsA.campus_id) = some exRoom1 ∧
      exRoom1.occupied < exRoom1.capacity ∧
      (∃ a ∈ exHost2.room_allocations, a.student_id = "stu" ∧ a.room_id = "1" ∧
        a.status = "active" ∧ a.campus_id = exClaimsA.campus_id)) ∧
     ((allocate_room exHost2 exClaimsA ⟨"stu", "1"⟩ 5).1 =
        Resp.ok "Room allocated successfully" [] ∧
      (allocate_room exHost2 exClaimsA ⟨"stu", "1"⟩ 5).2.room_allocations =
        exHost2.room_allocations ++
          [{ id := exHost2.nextId, student_id := "stu", room_id := "1", hostel_name := exRoom1.hostel_name, room_number := exRoom1.room_number, allocation_date := 5, status := "active", campus_id := exClaimsA.campus_id }] ∧
      (allocate_room exHost2 exClaimsA ⟨"stu", "1"⟩ 5).2.rooms.find?
          (fun r => r.id == 1) = some { exRoom1 with occupied := exRoom1.occupied + 1 })) ∧
    ((parseObjectId "1" = some 1 ∧
      (exLibDup.books.map Book.id).Nodup ∧
      exLibDup.books.find? (fun b => b.id == 1 &&
        b.campus_id == exClaimsA.campus_id) = some exBookDup ∧
      0 < exBookDup.available_copies ∧
      (∃ a ∈ exLibDup.book_issues, a.student_id = "stu" ∧ a.book_id = "1" ∧
        a.status = "issued" ∧ a.campus_id = exClaimsA.campus_id)) ∧
     ((issue_book exLibDup exClaimsA ⟨"1", "stu", 7⟩ 0).1 =
        Resp.ok "Book issued successfully" [0 + (7 : Int) * msPerDay] ∧
      (issue_book exLibDup exClaimsA ⟨"1", "stu", 7⟩ 0).2.book_issues =
        exLibDup.book_issues ++
          [{ id := exLibDup.nextId, book_id := "1", book_title := exBookDup.title, student_id := "stu", issue_date := 0, due_date := 0 + (7 : Int) * msPerDay, return_date := none, status := "issued", fine_amount := 0, campus_id := exClaimsA.campus_id }] ∧
      (issue_book exLibDup exClaimsA ⟨"1", "stu", 7⟩ 0).2.books.find?
          (fun b => b.id == 1) =
        some { exBookDup with available_copies := exBookDup.available_copies - 1 })) :=
  ⟨⟨⟨by decide, by decide, by decide, by decide, by decide⟩,
    C6_no_duplicate_check.1 exHost2 exClaimsA ⟨"stu", "1"⟩ 5 1 exRoom1
      (by decide) (by decide) (by decide) (by decide) (by decide)⟩,
   ⟨⟨by decide, by decide, by decide, by decide, by decide⟩,
    C6_no_duplicate_check.2 exLibDup exClaimsA ⟨"1", "stu", 7⟩ 0 1 exBookDup
      (by decide) (by decide) (by decide) (by decide) (by decide)⟩⟩

/-- C7 is false as stated for the Transition operation: the leave request
with id 1 exists but belongs to campus "B", yet `approve_leave` called by a
campus-"A" admin returns success (HTTP 200), not NotFound — though it does
leave the store unchanged, exactly as for an absent id. -/
theorem C7_counterexample :
    exHrB.leave_requests.map (fun l => (l.id, l.campus_id)) = [(1, "B")] ∧
    exClaimsA.campus_id = "A" ∧
    approve_leave exHrB exClaimsA ⟨"1", "approved"⟩ =
      (Resp.ok "Leave request updated successfully" [], exHrB) := by
  decide

/-- C7 (amended): when every record carrying the requested id lies outside
the caller's tenant (which covers both a cross-tenant id and a truly absent
id, making the two indistinguishable), Allocate and Release return NotFound
with the store unchanged, while the Transition handler `approve_leave`
returns success with the store unchanged — a successful no-op rather than
NotFound, still revealing nothing. -/
theorem C7_tenant_isolation :
    (∀ (st : HostelState) (claims : Claims) (allocation_data : AllocationRequest)
      (now : Int) (room_obj_id : Nat),
      parseObjectId allocation_data.room_id = some room_obj_id →
      (∀ r ∈ st.rooms, r.id = room_obj_id → r.campus_id ≠ claims.campus_id) →
      allocate_room st claims allocation_data now = (Resp.notFound "Room not found", st)) ∧
    (∀ (st : LibraryState) (claims : Claims) (issue_data : IssueRequest)
      (now : Int) (book_obj_id : Nat),
      parseObjectId issue_data.book_id = some book_obj_id →
      (∀ b ∈ st.books, b.id = book_obj_id → b.campus_id ≠ claims.campus_id) →
      issue_book st claims issue_data now = (Resp.notFound "Book not found", st)) ∧
    (∀ (st : LibraryState) (claims : Claims) (return_data : ReturnRequest)
      (now : Int) (issue_obj_id : Nat),
      parseObjectId return_data.issue_id = some issue_obj_id →
      (∀ i ∈ st.book_issues, i.id = issue_obj_id → i.campus_id ≠ claims.campus_id) →
      return_book st claims return_data now = (Resp.notFound "Issue record not found", st)) ∧
    (∀ (st : HrState) (claims : Claims) (approval_data : LeaveApproval)
      (request_obj_id : Nat),
      parseObjectId approval_data.request_id = some request_obj_id →
      (∀ l ∈ st.leave_requests, l.id = request_obj_id → l.campus_id ≠ claims.campus_id) →
      approve_leave st claims approval_data =
        (Resp.ok "Leave request updated successfully" [], st)) := by
  refine ⟨?_, ?_, ?_, ?_⟩
  · intro st claims allocation_data now room_obj_id hpar hcross
    have hnone : st.rooms.find? (fun r => r.id == room_obj_id &&
        r.campus_id == claims.campus_id) = none := by
      rw [List.find?_eq_none]
      intro r hr hp
      simp only [Bool.and_eq_true, beq_iff_eq] at hp
      exact hcross r hr hp.1 hp.2
    simp only [allocate_room, hpar, hnone]
  · intro st claims issue_data now book_obj_id hpar hcross
    have hnone : st.books.find? (fun b => b.id == book_obj_id &&
        b.campus_id == claims.campus_id) = none := by
      rw [List.find?_eq_none]
      intro b hb hp
      simp only [Bool.and_eq_true, beq_iff_eq] at hp
      exact hcross b hb hp.1 hp.2
    simp only [issue_book, hpar, hnone]
  · intro st claims return_data now issue_obj_id hpar hcross
    have hnone : st.book_issues.find? (fun i => i.id == issue_obj_id &&
        i.campus_id == claims.campus_id) = none := by
      rw [List.find?_eq_none]
      intro i hi hp
      simp only [Bool.and_eq_true, beq_iff_eq] at hp
      exact hcross i hi hp.1 hp.2
    simp only [return_book, hpar, hnone]
  · intro st claims approval_data request_obj_id hpar hcross
    have hnone : st.leave_requests.find? (fun l => l.id == request_obj_id &&
        l.campus_id == claims.campus_id) = none := by
      rw [List.find?_eq_none]
      intro l hl hp
      simp only [Bool.and_eq_true, beq_iff_eq] at hp
      exact hcross l hl hp.1 hp.2
    have hupd := updateFirst_of_find?_none
      (fun l : LeaveRequest => l.id == request_obj_id &&
        l.campus_id == claims.campus_id)
      (fun l : LeaveRequest => { l with status := approval_data.status }) hnone
    simp only [approve_leave, hpar, hupd]

/-- Witness for C7 on cross-tenant stores: each handler hit by a campus-"A"
caller against a campus-"B" record behaves exactly as on an absent id. -/
theorem C7_tenant_isolation_witness :
    (parseObjectId "1" = some 1 ∧
     (∀ r ∈ exHostB.rooms, r.id = 1 → r.campus_id ≠ exClaimsA.campus_id) ∧
     (∀ b ∈ exLibB.books, b.id = 1 → b.campus_id ≠ exClaimsA.campus_id) ∧
     parseObjectId "2" = some 2 ∧
     (∀ i ∈ exLibIssB.book_issues, i.id = 2 → i.campus_id ≠ exClaimsA.campus_id) ∧
     (∀ l ∈ exHrB.leave_requests, l.id = 1 → l.campus_id ≠ exClaimsA.campus_id)) ∧
    allocate_room exHostB exClaimsA ⟨"stu", "1"⟩ 5 =
      (Resp.notFound "Room not found", exHostB) ∧
    issue_book exLibB exClaimsA ⟨"1", "stu", 7⟩ 0 =
      (Resp.notFound "Book not found", exLibB) ∧
    return_book exLibIssB exClaimsA ⟨"2"⟩ 0 =
      (Resp.notFound "Issue record not found", exLibIssB) ∧
    approve_leave exHrB exClaimsA ⟨"1", "approved"⟩ =
      (Resp.ok "Leave request updated successfully" [], exHrB) :=
  ⟨⟨by decide, by decide, by decide, by decide, by decide, by decide⟩,
   C7_tenant_isolation.1 exHostB exClaimsA ⟨"stu", "1"⟩ 5 1 (by decide) (by decide),
   C7_tenant_isolation.2.1 exLibB exClaimsA ⟨"1", "stu", 7⟩ 0 1 (by decide) (by decide),
   C7_tenant_isolation.2.2.1 exLibIssB exClaimsA ⟨"2"⟩ 0 2 (by decide) (by decide),
   C7_tenant_isolation.2.2.2 exHrB exClaimsA ⟨"1", "approved"⟩ 1 (by decide) (by decide)⟩

/-- C8 is false as stated: in `exLibCross` the campus-"A" issue record points
at the campus-"B" book with id 7; a return by a campus-"A" caller increments
that cross-tenant book's `available_copies` — the secondary write carries no
tenant predicate. -/
theorem C8_counterexample :
    exLibCross.books.map (fun b => (b.id, b.campus_id, b.available_copies)) =
      [(7, "B", 0)] ∧
    exClaimsA.campus_id = "A" ∧
    (return_book exLibCross exClaimsA ⟨"2"⟩ 0).1 =
      Resp.ok "Book returned successfully" [0] ∧
    (return_book exLibCross exClaimsA ⟨"2"⟩ 0).2.books.map
      (fun b => (b.id, b.campus_id, b.available_copies)) = [(7, "B", 1)] := by
  decide

/-- C8 (amended): the tenant predicate is applied only on the primary read;
the secondary counter writes filter by `_id` alone.  In `allocate_room` the
incremented room is the row just read under the tenant filter, so (with
distinct ids) every written room carries the caller's tenant; in
`return_book` the book write stays in the caller's tenant only under the
linkage invariant that every issue references a book of its own campus —
on stores violating that linkage the write crosses tenants
(`C8_counterexample`). -/
theorem C8_writes_tenant_scoped :
    (∀ (st : HostelState) (claims : Claims) (allocation_data : AllocationRequest)
      (now : Int), (st.rooms.map Room.id).Nodup →
      ∀ r2 ∈ (allocate_room st claims allocation_data now).2.rooms,
        r2 ∈ st.rooms ∨ ∃ room ∈ st.rooms, room.campus_id = claims.campus_id ∧
          r2 = { room with occupied := room.occupied + 1 }) ∧
    (∀ (st : LibraryState) (claims : Claims) (return_data : ReturnRequest)
      (now : Int),
      (∀ i ∈ st.book_issues, ∀ b ∈ st.books,
        parseObjectId i.book_id = some b.id → b.campus_id = i.campus_id) →
      ∀ b2 ∈ (return_book st claims return_data now).2.books,
        b2 ∈ st.books ∨ ∃ b ∈ st.books, b.campus_id = claims.campus_id ∧
          b2 = { b with available_copies := b.available_copies + 1 }) := by
  constructor
  · intro st claims allocation_data now hnodup r2 hr2
    cases hpar : parseObjectId allocation_data.room_id with
    | none =>
      simp only [allocate_room, hpar] at hr2
      exact Or.inl hr2
    | some room_obj_id =>
      cases hfind : st.rooms.find? (fun r => r.id == room_obj_id &&
          r.campus_id == claims.campus_id) with
      | none =>
        simp only [allocate_room, hpar, hfind] at hr2
        exact Or.inl hr2
      | some room =>
        by_cases hfull : room.occupied ≥ room.capacity
        · simp only [allocate_room, hpar, hfind] at hr2
          rw [if_pos hfull] at hr2
          exact Or.inl hr2
        · simp only [allocate_room, hpar, hfind] at hr2
          rw [if_neg hfull] at hr2
          have hcamp : room.campus_id = claims.campus_id := by
            have hp := List.find?_some hfind
            simp only [Bool.and_eq_true, beq_iff_eq] at hp
            exact hp.2
          have hid : st.rooms.find? (fun r => r.id == room_obj_id) = some room :=
            find?_key_of_nodup Room.id (fun r => r.campus_id == claims.campus_id)
              hnodup hfind
          obtain ⟨l₁, l₂, heq, hl₁, _, hup⟩ := updateFirst_of_find?_some
            (fun r : Room => r.id == room_obj_id)
            (fun r : Room => { r with occupied := r.occupied + 1 }) hid
          rw [hup] at hr2
          have hroom : room ∈ st.rooms := List.mem_of_find?_eq_some hid
          rcases List.mem_append.1 hr2 with hr2 | hr2
          · exact Or.inl (by rw [heq]; exact List.mem_append.2 (Or.inl hr2))
          · rcases List.mem_cons.1 hr2 with hr2 | hr2
            · exact Or.inr ⟨room, hroom, hcamp, hr2⟩
            · exact Or.inl (by
                rw [heq]
                exact List.mem_append.2 (Or.inr (List.mem_cons_of_mem _ hr2)))
  · intro st claims return_data now hlink b2 hb2
    cases hpar : parseObjectId return_data.issue_id with
    | none =>
      simp only [return_book, hpar] at hb2
      exact Or.inl hb2
    | some issue_obj_id =>
      cases hfind : st.book_issues.find? (fun i => i.id == issue_obj_id &&
          i.campus_id == claims.campus_id) with
      | none =>
        simp only [return_book, hpar, hfind] at hb2
        exact Or.inl hb2
      | some issue =>
        cases hbpar : parseObjectId issue.book_id with
        | none =>
          simp only [return_book, hpar, hfind, hbpar] at hb2
          exact Or.inl hb2
        | some book_obj_id =>
          simp only [return_book, hpar, hfind, hbpar] at hb2
          have hissue : issue ∈ st.book_issues := List.mem_of_find?_eq_some hfind
          have hicamp : issue.campus_id = claims.campus_id := by
            have hp := List.find?_some hfind
            simp only [Bool.and_eq_true, beq_iff_eq] at hp
            exact hp.2
          rcases mem_updateFirst _ _ hb2 with hb2 | ⟨a, ha, hpa, hfa⟩
          · exact Or.inl hb2
          · have haid : a.id = book_obj_id := by
              simpa using hpa
            have hacamp : a.campus_id = issue.campus_id :=
              hlink issue hissue a ha (by rw [haid]; exact hbpar)
            exact Or.inr ⟨a, ha, by rw [hacamp, hicamp], hfa⟩

/-- Witness for C8 on well-linked stores: any room or book written by an
allocation on `exHost1` or a return on `exLib3` stays in the caller's
tenant. -/
theorem C8_writes_tenant_scoped_witness :
    ((exHost1.rooms.map Room.id).Nodup ∧
     (∀ i ∈ exLib3.book_issues, ∀ b ∈ exLib3.books,
       parseObjectId i.book_id = some b.id → b.campus_id = i.campus_id)) ∧
    (∀ r2 ∈ (allocate_room exHost1 exClaimsA ⟨"stu", "1"⟩ 5).2.rooms,
      r2 ∈ exHost1.rooms ∨ ∃ room ∈ exHost1.rooms,
        room.campus_id = exClaimsA.campus_id ∧
        r2 = { room with occupied := room.occupied + 1 }) ∧
    (∀ b2 ∈ (return_book exLib3 exClaimsA ⟨"2"⟩ 691200000).2.books,
      b2 ∈ exLib3.books ∨ ∃ b ∈ exLib3.books,
        b.campus_id = exClaimsA.campus_id ∧
        b2 = { b with available_copies := b.available_copies + 1 }) :=
  ⟨⟨by decide, by decide⟩,
   C8_writes_tenant_scoped.1 exHost1 exClaimsA ⟨"stu", "1"⟩ 5 (by decide),
   C8_writes_tenant_scoped.2 exLib3 exClaimsA ⟨"2"⟩ 691200000 (by decide)⟩

/-- C9: the fine computed on return is `max 0 (daysElapsed due now) * 5`:
zero at or before the due date, zero for an overdue interval under one whole
day (fractional days floored), and 15 at exactly three days overdue. -/
theorem C9_fine_formula :
    ∀ due now : Int,
      computeFine due now = max 0 (daysElapsed due now) * 5 ∧
      (now ≤ due → computeFine due now = 0) ∧
      (due < now → now - due < msPerDay → computeFine due now = 0) ∧
      computeFine due (due + 3 * msPerDay) = 15 := by
  intro due now
  refine ⟨?_, ?_, ?_, ?_⟩
  · unfold computeFine daysElapsed
    by_cases h : due < now
    · rw [if_pos h, if_neg (not_le.2 h)]
      have hd : 0 ≤ (now - due) / msPerDay :=
        Int.ediv_nonneg (by omega) (by norm_num [msPerDay])
      rw [max_eq_right hd]
    · rw [if_neg h, if_pos (not_lt.1 h)]
      simp
  · intro h
    unfold computeFine
    rw [if_neg (not_lt.2 h)]
  · intro h1 h2
    unfold computeFine
    rw [if_pos h1]
    have hz : (now - due) / msPerDay = 0 :=
      Int.ediv_eq_zero_of_lt (by omega) h2
    rw [hz]
    norm_num
  · unfold computeFine
    have h : due < due + 3 * msPerDay := by norm_num [msPerDay]
    rw [if_pos h]
    have h3 : due + 3 * msPerDay - due = 3 * msPerDay := by ring
    rw [h3, Int.mul_ediv_cancel 3 (by norm_num [msPerDay])]
    norm_num

/-- Witness for C9 at due = 0: one millisecond early, one millisecond late,
and exactly three days late. -/
theorem C9_fine_formula_witness :
    ((-1 : Int) ≤ 0 ∧ computeFine 0 (-1) = 0) ∧
    ((0 : Int) < 1 ∧ (1 : Int) - 0 < msPerDay ∧ computeFine 0 1 = 0) ∧
    computeFine 0 (0 + 3 * msPerDay) = 15 :=
  ⟨⟨by decide, (C9_fine_formula 0 (-1)).2.1 (by decide)⟩,
   ⟨by decide, by decide, (C9_fine_formula 0 1).2.2.1 (by decide) (by decide)⟩,
   (C9_fine_formula 0 0).2.2.2⟩

/-- C10: pool registration always creates the pool empty and in the caller's
tenant, whatever the request payload says: `create_room` inserts exactly one
room with `occupied = 0`, and `add_book` inserts exactly one book with
`available_copies = total_copies`; both take `campus_id` from the validated
claims (the request bodies carry no occupancy and no tenant field). -/
theorem C10_pool_registration_fresh :
    (∀ (st : HostelState) (claims : Claims) (room_data : RoomRequest) (now : Int),
      ∃ room : Room,
        (create_room st claims room_data now).2.rooms = st.rooms ++ [room] ∧
        room.occupied = 0 ∧ room.capacity = room_data.capacity ∧
        room.campus_id = claims.campus_id ∧
        (create_room st claims room_data now).1 =
          Resp.ok "Room created successfully" []) ∧
    (∀ (st : LibraryState) (claims : Claims) (book_data : BookRequest) (now : Int),
      ∃ book : Book,
        (add_book st claims book_data now).2.books = st.books ++ [book] ∧
        book.available_copies = book_data.total_copies ∧
        book.total_copies = book_data.total_copies ∧
        book.campus_id = claims.campus_id ∧
        (add_book st claims book_data now).1 =
          Resp.ok "Book added successfully" []) := by
  constructor
  · intro st claims room_data now
    exact ⟨_, rfl, rfl, rfl, rfl, rfl⟩
  · intro st claims book_data now
    exact ⟨_, rfl, rfl, rfl, rfl, rfl⟩

end CampusConnect
